import Mathlib

/-!
Shallow embedding of `src/main.rs` (generic_mutability_test).

The program wraps a stubbed FFI module (`monkey_ffi`) holding four
process-wide counters behind a capability-parameterized handle hierarchy
Root → Window → {Frame → FrameButton, WindowButton}.

Modelling choices:
- the four `static mut` counters of `monkey_ffi` become an explicit
  `MonkeyState` record threaded through every operation;
- `usize` counters become `Nat` (the source never wraps them and the
  claims assume no wraparound);
- the `PhantomData<T>` capability marker and the non-owning parent
  back-references that carry no data (`root: &Root`) are dropped; the
  `window` back-reference of `Frame` and the `parent` fields of buttons
  are kept as value snapshots because `Frame::get_width` reads through
  them;
- Rust functions that can `panic!` via `.expect` return `Option`:
  `none` marks the panic branch;
- capability-specific `impl` blocks become separate functions:
  `Window.get_frame`/`Window.get_button` are the `Immutable` impl,
  `Window.set_name`/`Window.make_frame`/`Window.make_button` the
  `Mutable` impl, and likewise for `Frame`.
-/

/-- The four `static mut` counters of the `monkey_ffi` module,
all zero at process start. -/
structure MonkeyState where
  windows : Nat
  frames : Nat
  windowButtons : Nat
  frameButtons : Nat
deriving Repr, DecidableEq

/-- Fresh gateway state: all counters zero. -/
def MonkeyState.initial : MonkeyState := ⟨0, 0, 0, 0⟩

/-- fn make_window() -> usize: increments MONKEY_WINDOWS_AMOUNT and
returns the new value. -/
def MonkeyFfi.make_window (s : MonkeyState) : Nat × MonkeyState :=
  let s1 : MonkeyState := { s with windows := s.windows + 1 }
  (s1.windows, s1)

/-- fn get_window(window_id) -> usize: reads MONKEY_WINDOWS_AMOUNT into
`id`; returns 0 when `window_id > id`, otherwise returns `id` (the
counter, not `window_id`). No counter is written. -/
def MonkeyFfi.get_window (window_id : Nat) (s : MonkeyState) : Nat × MonkeyState :=
  let id := s.windows
  if window_id > id then (0, s) else (id, s)

/-- fn make_frame(_window_id) -> usize: increments MONKEY_FRAMES_AMOUNT
and returns the new value; the argument is ignored. -/
def MonkeyFfi.make_frame (_window_id : Nat) (s : MonkeyState) : Nat × MonkeyState :=
  let s1 : MonkeyState := { s with frames := s.frames + 1 }
  (s1.frames, s1)

/-- fn make_window_button(_window_id) -> usize: increments
MONKEY_WINDOW_BUTTONS_AMOUNT and returns the new value. -/
def MonkeyFfi.make_window_button (_window_id : Nat) (s : MonkeyState) : Nat × MonkeyState :=
  let s1 : MonkeyState := { s with windowButtons := s.windowButtons + 1 }
  (s1.windowButtons, s1)

/-- fn make_frame_button(_window_id) -> usize: increments
MONKEY_FRAME_BUTTONS_AMOUNT and returns the new value. -/
def MonkeyFfi.make_frame_button (_window_id : Nat) (s : MonkeyState) : Nat × MonkeyState :=
  let s1 : MonkeyState := { s with frameButtons := s.frameButtons + 1 }
  (s1.frameButtons, s1)

/-- fn window_button_is_clicked: stubbed false. -/
def MonkeyFfi.window_button_is_clicked (_window_id _button_id : Nat) : Bool := false

/-- fn frame_button_is_clicked: stubbed false. -/
def MonkeyFfi.frame_button_is_clicked (_frame_id _button_id : Nat) : Bool := false

/-- struct Window<'a, T: ProbablyMutable>: id, name, frames_amount,
buttons_amount (the `root` back-reference and the `PhantomData`
capability marker carry no data and are dropped). -/
structure Window where
  id : Nat
  name : String
  frames_amount : Nat
  buttons_amount : Nat
deriving Repr, DecidableEq

/-- Window::new(root, id): matches monkey_ffi::get_window(id); on 0
returns None, otherwise Some of a Window with the given id, empty name
and zero counters. -/
def Window.new (s : MonkeyState) (id : Nat) : Option Window × MonkeyState :=
  let r := MonkeyFfi.get_window id s
  (if r.1 = 0 then none
   else some { id := id, name := "", frames_amount := 0, buttons_amount := 0 },
   r.2)

/-- Window::get_id. -/
def Window.get_id (w : Window) : Nat := w.id

/-- Window::get_name: returns the locally cached name. -/
def Window.get_name (w : Window) : String := w.name

/-- Window::get_width: the source returns the constant 400 (stand-in for
a real FFI width query). -/
def Window.get_width (_w : Window) : Nat := 400

/-- Window<Mutable>::set_name: pure local mutation of the cached name. -/
def Window.set_name (w : Window) (name : String) : Window := { w with name := name }

/-- Root::make_child: mints an id via monkey_ffi::make_window and wraps
it with Window::new; the source unwraps with `.expect`, so `none` here
is the panic branch. -/
def Root.make_child (s : MonkeyState) : Option Window × MonkeyState :=
  let r := MonkeyFfi.make_window s
  Window.new r.2 r.1

/-- Root::get_child(id) -> Option<Window<Immutable>>: re-validates via
Window::new. -/
def Root.get_child (s : MonkeyState) (id : Nat) : Option Window × MonkeyState :=
  Window.new s id

/-- Root::get_child_mut(id) -> Option<Window<Mutable>>: same body as
get_child; only the capability tag differs. -/
def Root.get_child_mut (s : MonkeyState) (id : Nat) : Option Window × MonkeyState :=
  Window.new s id

/-- struct Frame<'a, T: ProbablyMutable>: window back-reference
(snapshot), id, optional width override, buttons_amount. -/
structure Frame where
  window : Window
  id : Nat
  width_px : Option Nat
  buttons_amount : Nat
deriving Repr, DecidableEq

/-- Frame::new(window, id): calls monkey_ffi::make_frame(id) (a creation
primitive, not a validator), shadowing `id` with the freshly minted
counter value; on 0 returns None, otherwise Some of a Frame carrying the
minted id. -/
def Frame.new (window : Window) (id : Nat) (s : MonkeyState) : Option Frame × MonkeyState :=
  let r := MonkeyFfi.make_frame id s
  (if r.1 = 0 then none
   else some { window := window, id := r.1, width_px := none, buttons_amount := 0 },
   r.2)

/-- Frame::get_id. -/
def Frame.get_id (f : Frame) : Nat := f.id

/-- Frame::get_width: own override if set, else the parent Window's
get_width. -/
def Frame.get_width (f : Frame) : Nat :=
  match f.width_px with
  | none => Window.get_width f.window
  | some width => width

/-- Frame<Mutable>::set_width. -/
def Frame.set_width (f : Frame) (width_px : Nat) : Frame :=
  { f with width_px := some width_px }

/-- Window<Immutable>::get_frame(id): delegates to Frame::new. -/
def Window.get_frame (w : Window) (id : Nat) (s : MonkeyState) : Option Frame × MonkeyState :=
  Frame.new w id s

/-- Window<Mutable>::make_frame: mints an id via monkey_ffi::make_frame,
increments the local frames_amount, then builds via Frame::new (which
mints a second id); `.expect` in the source means `none` is the panic
branch. Returns the updated window, the frame and the state. -/
def Window.make_frame (w : Window) (s : MonkeyState) :
    Window × Option Frame × MonkeyState :=
  let r := MonkeyFfi.make_frame (Window.get_id w) s
  let w1 : Window := { w with frames_amount := w.frames_amount + 1 }
  let fr := Frame.new w1 r.1 r.2
  (w1, fr.1, fr.2)

/-- struct WindowButton<'a, T: ProbablyMutable>: id, text, parent
(snapshot of the Window). -/
structure WindowButton where
  id : Nat
  text : String
  parent : Window
deriving Repr, DecidableEq

/-- WindowButton::new (Button::new impl): calls
monkey_ffi::make_window_button(id), shadowing `id` with the minted
counter value; on 0 returns None. -/
def WindowButton.new (parent : Window) (id : Nat) (s : MonkeyState) :
    Option WindowButton × MonkeyState :=
  let r := MonkeyFfi.make_window_button id s
  (if r.1 = 0 then none
   else some { id := r.1, text := "", parent := parent },
   r.2)

/-- WindowButton::get_id. -/
def WindowButton.get_id (b : WindowButton) : Nat := b.id

/-- Window<Immutable>::get_button(id): delegates to WindowButton::new. -/
def Window.get_button (w : Window) (id : Nat) (s : MonkeyState) :
    Option WindowButton × MonkeyState :=
  WindowButton.new w id s

/-- Window<Mutable>::make_button: takes id from the local
buttons_amount, increments that counter, then builds via
WindowButton::new (passing the updated self). -/
def Window.make_button (w : Window) (s : MonkeyState) :
    Window × Option WindowButton × MonkeyState :=
  let id := w.buttons_amount
  let w1 : Window := { w with buttons_amount := w.buttons_amount + 1 }
  let b := WindowButton.new w1 id s
  (w1, b.1, b.2)

/-- struct FrameButton<'a, T: ProbablyMutable>: id, text, parent
(snapshot of the Frame). -/
structure FrameButton where
  id : Nat
  text : String
  parent : Frame
deriving Repr, DecidableEq

/-- FrameButton::new (Button::new impl): calls
monkey_ffi::make_frame_button(id), shadowing `id` with the minted
counter value; on 0 returns None. -/
def FrameButton.new (parent : Frame) (id : Nat) (s : MonkeyState) :
    Option FrameButton × MonkeyState :=
  let r := MonkeyFfi.make_frame_button id s
  (if r.1 = 0 then none
   else some { id := r.1, text := "", parent := parent },
   r.2)

/-- FrameButton::get_id. -/
def FrameButton.get_id (b : FrameButton) : Nat := b.id

/-- Frame<Immutable>::get_button(id): delegates to FrameButton::new. -/
def Frame.get_button (f : Frame) (id : Nat) (s : MonkeyState) :
    Option FrameButton × MonkeyState :=
  FrameButton.new f id s

/-- Frame<Mutable>::make_button: takes id from the local buttons_amount,
increments it, then builds via FrameButton::new. -/
def Frame.make_button (f : Frame) (s : MonkeyState) :
    Frame × Option FrameButton × MonkeyState :=
  let id := f.buttons_amount
  let f1 : Frame := { f with buttons_amount := f.buttons_amount + 1 }
  let b := FrameButton.new f1 id s
  (f1, b.1, b.2)

/-- A sample already-constructed Window handle (id 1, default caches),
used to instantiate universally quantified theorems. -/
def sampleWindow : Window := { id := 1, name := "", frames_amount := 0, buttons_amount := 0 }

/-- A sample Frame handle with no width override. -/
def sampleFrame : Frame := { window := sampleWindow, id := 1, width_px := none, buttons_amount := 0 }

/-- C6: from a fresh Root and gateway, the first make_child yields id 1,
the second yields id 2, and get_child 1 / get_child 2 then both return
Some with matching get_id. -/
theorem c6_scenario :
    ((Root.make_child MonkeyState.initial).1.map Window.get_id = some 1) ∧
    ((Root.make_child (Root.make_child MonkeyState.initial).2).1.map Window.get_id = some 2) ∧
    ((Root.get_child (Root.make_child (Root.make_child MonkeyState.initial).2).2 1).1.map
        Window.get_id = some 1) ∧
    ((Root.get_child (Root.make_child (Root.make_child MonkeyState.initial).2).2 2).1.map
        Window.get_id = some 2) := by
  decide

/-- C7: a Frame with no width override reports its parent Window's
width; after set_width w it reports exactly w. -/
theorem c7_width_inheritance (f : Frame) (wpx : Nat) (h : f.width_px = none) :
    Frame.get_width f = Window.get_width f.window ∧
    Frame.get_width (Frame.set_width f wpx) = wpx := by
  constructor
  · simp [Frame.get_width, h]
  · simp [Frame.get_width, Frame.set_width]

/-- Witness for c7_width_inheritance at the sample Frame. -/
theorem c7_width_inheritance_witness :
    Frame.get_width sampleFrame = Window.get_width sampleFrame.window ∧
    Frame.get_width (Frame.set_width sampleFrame 123) = 123 :=
  c7_width_inheritance sampleFrame 123 rfl

/-- C8: every Window.make_frame call advances the gateway frame counter
by 2 and returns a Frame whose id is the second minted value; from a
fresh gateway successive calls yield ids 2, 4, 6. -/
theorem c8_make_frame_mints_twice (w : Window) (s : MonkeyState) :
    ((Window.make_frame w s).2.2).frames = s.frames + 2 ∧
    ((Window.make_frame w s).2.1).map Frame.get_id = some (s.frames + 2) ∧
    (let r1 := Window.make_frame sampleWindow MonkeyState.initial
     let r2 := Window.make_frame r1.1 r1.2.2
     let r3 := Window.make_frame r2.1 r2.2.2
     (r1.2.1.map Frame.get_id, r2.2.1.map Frame.get_id, r3.2.1.map Frame.get_id)
       = (some 2, some 4, some 6)) := by
  refine ⟨rfl, rfl, by decide⟩

/-- C2 counterexample: with one window issued, Root.get_child 0 returns
Some (identifier 0 was never issued: make_window starts at 1), and the
Immutable re-derivation paths return Some for the never-issued
identifier 99 on a fresh gateway. -/
theorem c2_counterexample :
    ((Root.get_child (MonkeyFfi.make_window MonkeyState.initial).2 0).1
        = some { id := 0, name := "", frames_amount := 0, buttons_amount := 0 }) ∧
    (Window.get_frame sampleWindow 99 MonkeyState.initial).1.isSome = true ∧
    (Window.get_button sampleWindow 99 MonkeyState.initial).1.isSome = true ∧
    (Frame.get_button sampleFrame 99 MonkeyState.initial).1.isSome = true := by
  decide

/-- C2 amended: none of the lookup paths crashes (they are total and
return Option); Root.get_child returns none exactly when the queried id
exceeds the windows counter or no window was ever created — so a
never-issued id below the counter, including 0, yields Some — and
get_frame / get_button (Window and Frame) return Some for every id,
because they call the creation primitives rather than a validator. -/
theorem c2_amended (s : MonkeyState) (id : Nat) (w : Window) (f : Frame) :
    ((Root.get_child s id).1 = none ↔ (s.windows < id ∨ s.windows = 0)) ∧
    (Window.get_frame w id s).1.isSome = true ∧
    (Window.get_button w id s).1.isSome = true ∧
    (Frame.get_button f id s).1.isSome = true := by
  refine ⟨?_, ?_, ?_, ?_⟩
  · unfold Root.get_child Window.new MonkeyFfi.get_window
    by_cases h : id > s.windows <;> simp [h]
  · unfold Window.get_frame Frame.new MonkeyFfi.make_frame
    simp
  · unfold Window.get_button WindowButton.new MonkeyFfi.make_window_button
    simp
  · unfold Frame.get_button FrameButton.new MonkeyFfi.make_frame_button
    simp

/-- C3 counterexample: from a fresh gateway, make_frame creates a Frame
with get_id 2, but immediately re-deriving with get_frame 2 returns a
Frame whose get_id is 3, not 2. -/
theorem c3_counterexample :
    ((Window.make_frame sampleWindow MonkeyState.initial).2.1.map Frame.get_id = some 2) ∧
    ((Window.get_frame sampleWindow 2
        (Window.make_frame sampleWindow MonkeyState.initial).2.2).1.map Frame.get_id
      = some 3) := by
  decide

/-- C3 amended: the round-trip holds for Windows — a make_child-created
Window has id windows+1 and get_child with that id returns a handle
with the same id — but for Frames and buttons the re-derivation path
returns Some with a FRESHLY MINTED id: the created Frame has id
frames+2 and immediately re-deriving it yields id frames+3; each
created button has id counter+1 and immediately re-deriving it yields
id counter+2. -/
theorem c3_amended (s : MonkeyState) (w : Window) (f : Frame) :
    ((Root.make_child s).1.map Window.get_id = some (s.windows + 1)) ∧
    ((Root.get_child (Root.make_child s).2 (s.windows + 1)).1.map Window.get_id
      = some (s.windows + 1)) ∧
    ((Window.make_frame w s).2.1.map Frame.get_id = some (s.frames + 2)) ∧
    ((Window.get_frame w (s.frames + 2) (Window.make_frame w s).2.2).1.map Frame.get_id
      = some (s.frames + 3)) ∧
    ((Window.make_button w s).2.1.map WindowButton.get_id = some (s.windowButtons + 1)) ∧
    ((Window.get_button w (s.windowButtons + 1) (Window.make_button w s).2.2).1.map
        WindowButton.get_id = some (s.windowButtons + 2)) ∧
    ((Frame.make_button f s).2.1.map FrameButton.get_id = some (s.frameButtons + 1)) ∧
    ((Frame.get_button f (s.frameButtons + 1) (Frame.make_button f s).2.2).1.map
        FrameButton.get_id = some (s.frameButtons + 2)) := by
  refine ⟨?_, ?_, rfl, rfl, rfl, rfl, rfl, rfl⟩
  · unfold Root.make_child Window.new MonkeyFfi.make_window MonkeyFfi.get_window
    simp [Window.get_id]
  · unfold Root.make_child Root.get_child Window.new MonkeyFfi.make_window
      MonkeyFfi.get_window
    simp [Window.get_id]

/-- C4 counterexample: with two windows issued, get_window 1 queries an
identifier inside the issued range but returns 2 (the counter), not the
queried identifier 1. -/
theorem c4_counterexample :
    (MonkeyFfi.get_window 1 ⟨2, 0, 0, 0⟩).1 = 2 ∧
    (MonkeyFfi.get_window 1 ⟨2, 0, 0, 0⟩).1 ≠ 1 := by
  decide

/-- C4 amended: get_window performs no side effects, and returns the
CURRENT WINDOWS COUNTER (not the queried identifier) whenever the
queried identifier is at most the counter, 0 otherwise; it therefore
echoes the queried identifier only when that identifier equals the
counter. -/
theorem c4_amended (id : Nat) (s : MonkeyState) :
    (MonkeyFfi.get_window id s).2 = s ∧
    (id ≤ s.windows → (MonkeyFfi.get_window id s).1 = s.windows) ∧
    (s.windows < id → (MonkeyFfi.get_window id s).1 = 0) := by
  unfold MonkeyFfi.get_window
  by_cases h : id > s.windows <;> simp [h]

/-- Witness for c4_amended at id 1 and id 5 against a counter of 2. -/
theorem c4_amended_witness :
    (MonkeyFfi.get_window 1 ⟨2, 0, 0, 0⟩).1 = 2 ∧
    (MonkeyFfi.get_window 5 ⟨2, 0, 0, 0⟩).1 = 0 :=
  ⟨(c4_amended 1 ⟨2, 0, 0, 0⟩).2.1 (by decide),
   (c4_amended 5 ⟨2, 0, 0, 0⟩).2.2 (by decide)⟩

/-- C5 counterexample: on a fresh gateway, Window.get_frame bumps the
gateway frame counter from 0 to 1, and Window.get_button bumps the
window-button counter from 0 to 1. -/
theorem c5_counterexample :
    ((Window.get_frame sampleWindow 3 MonkeyState.initial).2.frames = 1 ∧
      MonkeyState.initial.frames = 0) ∧
    ((Window.get_button sampleWindow 3 MonkeyState.initial).2.windowButtons = 1 ∧
      MonkeyState.initial.windowButtons = 0) := by
  decide

/-- C5 amended: Window<Immutable>.get_frame increments the gateway frame
counter by exactly 1 (it calls make_frame through Frame.new) and leaves
the other gateway counters unchanged; get_button likewise increments
the window-button counter by exactly 1. The Window's locally cached
counters are untouched: both calls take the window immutably and return
no updated window. -/
theorem c5_amended (w : Window) (id : Nat) (s : MonkeyState) :
    (Window.get_frame w id s).2 = { s with frames := s.frames + 1 } ∧
    (Window.get_button w id s).2 = { s with windowButtons := s.windowButtons + 1 } := by
  exact ⟨rfl, rfl⟩

/-- C9: the `.expect` panic branches are unreachable: in every gateway
state, Root.make_child, Window.make_frame, Window.make_button and
Frame.make_button all produce Some, because each freshly minted counter
value is at least 1 and so never hits the zero-check. -/
theorem c9_expect_branches_unreachable (s : MonkeyState) (w : Window) (f : Frame) :
    (Root.make_child s).1.isSome = true ∧
    (Window.make_frame w s).2.1.isSome = true ∧
    (Window.make_button w s).2.1.isSome = true ∧
    (Frame.make_button f s).2.1.isSome = true := by
  refine ⟨?_, ?_, ?_, ?_⟩
  · unfold Root.make_child Window.new MonkeyFfi.make_window MonkeyFfi.get_window
    simp
  · unfold Window.make_frame Frame.new MonkeyFfi.make_frame
    simp
  · unfold Window.make_button WindowButton.new MonkeyFfi.make_window_button
    simp
  · unfold Frame.make_button FrameButton.new MonkeyFfi.make_frame_button
    simp

/-- C10: whenever Root.get_child or Root.get_child_mut (both Window.new)
succeeds, the returned Window has an empty cached name and zero frame
and button counters — in every gateway state, hence regardless of any
set_name or child creation previously performed through another handle:
no name set by set_name is observable through a re-derived handle. -/
theorem c10_rederived_window_defaults (s : MonkeyState) (id : Nat) (w : Window)
    (h : (Root.get_child s id).1 = some w ∨ (Root.get_child_mut s id).1 = some w) :
    Window.get_name w = "" ∧ w.frames_amount = 0 ∧ w.buttons_amount = 0 := by
  have hw : (Window.new s id).1 = some w := by
    rcases h with h | h <;> exact h
  unfold Window.new at hw
  by_cases hz : (MonkeyFfi.get_window id s).1 = 0
  · simp [hz] at hw
  · simp [hz] at hw
    subst hw
    exact ⟨rfl, rfl, rfl⟩

/-- Witness for c10_rederived_window_defaults: get_child on a state with
one issued window returns the sample Window, whose caches are default. -/
theorem c10_rederived_window_defaults_witness :
    Window.get_name sampleWindow = "" ∧ sampleWindow.frames_amount = 0 ∧
      sampleWindow.buttons_amount = 0 :=
  c10_rederived_window_defaults ⟨1, 0, 0, 0⟩ 1 sampleWindow (Or.inl (by decide))
